import Mathlib

/-!
Verification of the procedural character generator repository.

This file shallowly embeds the parts of the code base that the claims are
about and proves theorems about the embedding:

* `SkeletonBuilder.autoSkin` (distance-based automatic skinning),
* `PluginManager.register` / `PluginManager.unregister`,
* `HumanoidGenerator.generate` / `buildHumanoid` and the monster
  generator's `buildSlime`.

Numbers that are IEEE doubles in the source are embedded as exact
rationals (`ℚ`) where the source only adds, subtracts, multiplies and
compares them, and as reals (`ℝ`) where the source takes square roots
(`Vector3.distanceTo`), divides by a running total, or multiplies by π.
-/

namespace CharGen

/-! ## Vectors and distances

`THREE.Vector3` restricted to what `autoSkin` uses.  The source computes
`vertex.distanceTo(bonePos)` (a Euclidean distance, hence a square root).
We store the *squared* distance, an exact rational, and take the square
root only where the numeric value of the distance is used (the weight
formula); comparisons of squared distances are order-equivalent to
comparisons of distances because `Real.sqrt` is monotone on nonnegatives. -/

structure Vec3 where
  x : ℚ
  y : ℚ
  z : ℚ
deriving DecidableEq, Repr

/-- Squared Euclidean distance between two vectors. -/
def dist2 (a b : Vec3) : ℚ :=
  (a.x - b.x) ^ 2 + (a.y - b.y) ^ 2 + (a.z - b.z) ^ 2

/-- `THREE.Vector3.distanceTo`: the Euclidean distance. -/
noncomputable def Vec3.distanceTo (a b : Vec3) : ℝ :=
  Real.sqrt ((dist2 a b : ℚ) : ℝ)

theorem dist2_nonneg (a b : Vec3) : 0 ≤ dist2 a b := by
  unfold dist2; positivity

def originVec : Vec3 := ⟨0, 0, 0⟩

/-! ## Geometry and skeleton data

`THREE.BufferGeometry` restricted to the three attributes `autoSkin`
reads or writes.  A `BufferAttribute` keeps its entry list and its
`itemSize`.  A bone is represented by its world position: the source
immediately maps each bone to `bone.getWorldPosition(...)`, a scene-graph
computation performed by the rendering library (an excluded external
collaborator per the spec), so the world position is the interface. -/

structure BufferAttribute (α : Type) where
  entries : List α
  itemSize : ℕ
deriving DecidableEq, Repr

structure Bone where
  worldPos : Vec3
deriving DecidableEq, Repr

/-- `bone.getWorldPosition(target)` (library call; returns the bone's
world-space origin). -/
def getWorldPosition (b : Bone) : Vec3 := b.worldPos

structure Skeleton where
  bones : List Bone
deriving DecidableEq, Repr

structure BufferGeometry where
  position : Option (BufferAttribute Vec3)
  skinIndex : Option (BufferAttribute ℕ)
  skinWeight : Option (BufferAttribute ℝ)

/-! ## The sort in `autoSkin`

The source builds, per vertex, the list
`distances = [{index: j, distance: d_j} | j in bone order]` (index order is
increasing) and runs `distances.sort((a, b) => a.distance - b.distance)`.
`Array.prototype.sort` is stable (ECMA-262), so on this input the result
is the unique permutation that is sorted under the lexicographic order
"by distance, then by original index".  We embed an entry as the pair
`(index, squared distance)` and sort by that lexicographic order
directly; squared distances compare like distances. -/

def distLe (a b : ℕ × ℚ) : Prop :=
  a.2 < b.2 ∨ (a.2 = b.2 ∧ a.1 ≤ b.1)

instance : DecidableRel distLe := fun a b => by
  unfold distLe; infer_instance

instance : IsTotal (ℕ × ℚ) distLe :=
  ⟨fun a b => by
    rcases lt_trichotomy a.2 b.2 with h | h | h
    · exact Or.inl (Or.inl h)
    · rcases Nat.le_total a.1 b.1 with hn | hn
      · exact Or.inl (Or.inr ⟨h, hn⟩)
      · exact Or.inr (Or.inr ⟨h.symm, hn⟩)
    · exact Or.inr (Or.inl h)⟩

instance : IsTrans (ℕ × ℚ) distLe :=
  ⟨fun a b c hab hbc => by
    rcases hab with h1 | ⟨h1, h1n⟩
    · rcases hbc with h2 | ⟨h2, _⟩
      · exact Or.inl (h1.trans h2)
      · exact Or.inl (h2 ▸ h1)
    · rcases hbc with h2 | ⟨h2, h2n⟩
      · exact Or.inl (h1 ▸ h2)
      · exact Or.inr ⟨h1.trans h2, h1n.trans h2n⟩⟩

instance : IsAntisymm (ℕ × ℚ) distLe :=
  ⟨fun a b hab hba => by
    rcases hab with h1 | ⟨h1, h1n⟩
    · rcases hba with h2 | ⟨h2, _⟩
      · exact absurd (h1.trans h2) (lt_irrefl _)
      · exact absurd h1 (h2 ▸ lt_irrefl _)
    · rcases hba with h2 | ⟨h2, h2n⟩
      · exact absurd h2 (h1 ▸ lt_irrefl _)
      · exact Prod.ext (Nat.le_antisymm h1n h2n) h1⟩

/-! ## `SkeletonBuilder.autoSkin` -/

/-- The per-vertex list `distances`: one `(index, squared distance)` entry
per bone, in original bone-index order.  (The source guards each access
with `if (bonePos)`, which never fails: every index comes from the same
array.) -/
def distancesFor (bonePositions : List Vec3) (v : Vec3) : List (ℕ × ℚ) :=
  bonePositions.enum.map (fun jp => (jp.1, dist2 v jp.2))

/-- `distances.sort(...).slice(0, maxInfluences)`: the selected bones. -/
def closestBones (bonePositions : List Vec3) (k : ℕ) (v : Vec3) : List (ℕ × ℚ) :=
  (List.insertionSort distLe (distancesFor bonePositions v)).take k

/-- The raw inverse-distance weight `1 / (entry.distance + 0.001)`. -/
noncomputable def rawWeight (e : ℕ × ℚ) : ℝ :=
  1 / (Real.sqrt ((e.2 : ℚ) : ℝ) + 0.001)

/-- The per-vertex influence slots: the source pushes, for
`j = 0 .. maxInfluences - 1`, the pair `(closest[j].index, weights[j] /
totalWeight)` when slot `j` is populated and `(0, 0)` otherwise. -/
noncomputable def vertexPairs (bonePositions : List Vec3) (k : ℕ) (v : Vec3) :
    List (ℕ × ℝ) :=
  let closest := closestBones bonePositions k v
  let weights := closest.map rawWeight
  let totalWeight := weights.sum
  (List.range k).map (fun j =>
    match closest[j]?, weights[j]? with
    | some entry, some w => (entry.1, w / totalWeight)
    | _, _ => (0, 0))

/-- `SkeletonBuilder.autoSkin(geometry, skeleton, maxInfluences = 4)`.
Returns the geometry after the call (the source mutates it in place).
If the geometry has no position attribute the function returns before
writing anything; otherwise it sets the `skinIndex` and `skinWeight`
attributes, both with item size `maxInfluences`, concatenating the
per-vertex slots in vertex order.  (The source stores the indices in a
`Uint16BufferAttribute`; we record each index as pushed — the 16-bit
truncation would only differ on skeletons with at least 2^16 bones.) -/
noncomputable def autoSkin (geometry : BufferGeometry) (skeleton : Skeleton)
    (maxInfluences : ℕ := 4) : BufferGeometry :=
  match geometry.position with
  | none => geometry
  | some positions =>
      let bonePositions := skeleton.bones.map getWorldPosition
      let skinIndices := positions.entries.flatMap
        (fun v => (vertexPairs bonePositions maxInfluences v).map Prod.fst)
      let skinWeights := positions.entries.flatMap
        (fun v => (vertexPairs bonePositions maxInfluences v).map Prod.snd)
      { geometry with
        skinIndex := some ⟨skinIndices, maxInfluences⟩
        skinWeight := some ⟨skinWeights, maxInfluences⟩ }

/-! ## Structural lemmas about the per-vertex computation -/

theorem range_map_getD {α : Type} (l : List α) (d : α) :
    ∀ k, l.length ≤ k →
      (List.range k).map (fun j => (l[j]?).getD d) =
        l ++ List.replicate (k - l.length) d := by
  induction l with
  | nil =>
      intro k _
      simp [List.map_const']
  | cons a t ih =>
      intro k hk
      cases k with
      | zero => simp at hk
      | succ k =>
          rw [List.range_succ_eq_map, List.map_cons, List.map_map]
          have htail :
              ((fun j => ((a :: t)[j]?).getD d) ∘ Nat.succ) =
                fun j => (t[j]?).getD d := by
            funext j; simp
          rw [htail, ih k (by simpa using hk)]
          simp

theorem length_closestBones (b : List Vec3) (k : ℕ) (v : Vec3) :
    (closestBones b k v).length = min k b.length := by
  simp [closestBones, distancesFor]

theorem mem_distancesFor {b : List Vec3} {v : Vec3} {e : ℕ × ℚ}
    (he : e ∈ distancesFor b v) :
    e.1 < b.length ∧ e.2 = dist2 v (b.getD e.1 originVec) := by
  rcases List.mem_map.1 he with ⟨jp, hjp, rfl⟩
  have hget : b.get? jp.1 = some jp.2 := List.mem_enum_iff_get?.1 hjp
  have hlt : jp.1 < b.length := by
    by_contra h
    rw [List.get?_eq_none.2 (le_of_not_lt h)] at hget
    exact Option.noConfusion hget
  refine ⟨hlt, ?_⟩
  have : b.getD jp.1 originVec = jp.2 := by
    rw [List.getD_eq_get? , hget]; rfl
  rw [this]

theorem mem_closestBones {b : List Vec3} {k : ℕ} {v : Vec3} {e : ℕ × ℚ}
    (he : e ∈ closestBones b k v) :
    e.1 < b.length ∧ e.2 = dist2 v (b.getD e.1 originVec) :=
  mem_distancesFor
    ((List.mem_insertionSort distLe).1 (List.take_subset _ _ he))

theorem length_vertexPairs (b : List Vec3) (k : ℕ) (v : Vec3) :
    (vertexPairs b k v).length = k := by
  simp [vertexPairs]

theorem vertexPairs_eq (b : List Vec3) (k : ℕ) (v : Vec3) :
    vertexPairs b k v =
      (closestBones b k v).map
        (fun e => (e.1, rawWeight e / ((closestBones b k v).map rawWeight).sum))
      ++ List.replicate (k - (closestBones b k v).length) ((0 : ℕ), (0 : ℝ)) := by
  have hlen : (closestBones b k v).length ≤ k := by
    rw [length_closestBones]; exact min_le_left _ _
  apply List.ext_getElem?
  intro j
  by_cases hjk : j < k
  · by_cases hjc : j < (closestBones b k v).length
    · have hcl : (closestBones b k v)[j]? =
          some ((closestBones b k v).get ⟨j, hjc⟩) := by
        rw [List.getElem?_eq_getElem hjc]; rfl
      have hw : (List.map rawWeight (closestBones b k v))[j]? =
          some (rawWeight ((closestBones b k v).get ⟨j, hjc⟩)) := by
        rw [List.getElem?_map, hcl]; rfl
      have hlhs : (vertexPairs b k v)[j]? = some
          (((closestBones b k v).get ⟨j, hjc⟩).1,
            rawWeight ((closestBones b k v).get ⟨j, hjc⟩) /
              (List.map rawWeight (closestBones b k v)).sum) := by
        simp only [vertexPairs]
        rw [List.getElem?_map, List.getElem?_range hjk, Option.map_some', hcl, hw]
      rw [hlhs, List.getElem?_append]
      rw [if_pos (by simpa using hjc), List.getElem?_map, hcl]
      rfl
    · have hcl : (closestBones b k v)[j]? = none :=
        List.getElem?_eq_none (le_of_not_lt hjc)
      have hw : (List.map rawWeight (closestBones b k v))[j]? = none := by
        rw [List.getElem?_map, hcl]; rfl
      have hlhs : (vertexPairs b k v)[j]? = some ((0 : ℕ), (0 : ℝ)) := by
        simp only [vertexPairs]
        rw [List.getElem?_map, List.getElem?_range hjk, Option.map_some', hcl, hw]
      rw [hlhs, List.getElem?_append]
      rw [if_neg (by simp only [List.length_map]; omega), List.getElem?_replicate]
      rw [if_pos (by simp only [List.length_map]; omega)]
  · have h1 : (vertexPairs b k v)[j]? = none := by
      apply List.getElem?_eq_none; rw [length_vertexPairs]; omega
    have h2 :
        ((closestBones b k v).map
            (fun e => (e.1, rawWeight e / ((closestBones b k v).map rawWeight).sum))
          ++ List.replicate (k - (closestBones b k v).length)
              ((0 : ℕ), (0 : ℝ)))[j]? = none := by
      apply List.getElem?_eq_none
      simp only [List.length_append, List.length_map, List.length_replicate]
      omega
    rw [h1, h2]

theorem rawWeight_pos (e : ℕ × ℚ) : 0 < rawWeight e := by
  unfold rawWeight
  have h1 : (0 : ℝ) ≤ Real.sqrt ((e.2 : ℚ) : ℝ) := Real.sqrt_nonneg _
  positivity

theorem totalWeight_pos {cl : List (ℕ × ℚ)} (hne : cl ≠ []) :
    0 < (cl.map rawWeight).sum := by
  refine List.sum_pos _ ?_ ?_
  · intro x hx
    rcases List.mem_map.1 hx with ⟨e, _, rfl⟩
    exact rawWeight_pos e
  · simpa using hne

theorem sum_map_div (l : List ℝ) (c : ℝ) :
    (l.map (fun x => x / c)).sum = l.sum / c := by
  induction l with
  | nil => simp
  | cons a t ih => simp [ih, add_div]

theorem closestBones_ne_nil {b : List Vec3} {k : ℕ} (v : Vec3)
    (hb : b ≠ []) (hk : 0 < k) : closestBones b k v ≠ [] := by
  have hlen : (closestBones b k v).length = min k b.length :=
    length_closestBones b k v
  intro h
  rw [h] at hlen
  have hbpos : 0 < b.length := List.length_pos.2 hb
  simp only [List.length_nil] at hlen
  omega

theorem vertexPairs_snd_sum (b : List Vec3) (k : ℕ) (v : Vec3)
    (hb : b ≠ []) (hk : 0 < k) :
    ((vertexPairs b k v).map Prod.snd).sum = 1 := by
  rw [vertexPairs_eq]
  set cl := closestBones b k v with hcl
  set T := (cl.map rawWeight).sum with hT
  have hclne : cl ≠ [] := closestBones_ne_nil v hb hk
  have hTpos : 0 < T := totalWeight_pos hclne
  rw [List.map_append, List.sum_append, List.map_replicate]
  have hsnd :
      (cl.map fun e => (e.1, rawWeight e / T)).map Prod.snd =
        (cl.map rawWeight).map (fun x => x / T) := by
    rw [List.map_map, List.map_map]; rfl
  rw [hsnd, sum_map_div, ← hT]
  simp [div_self (ne_of_gt hTpos)]

theorem closestBones_optimal {b : List Vec3} {k : ℕ} {v : Vec3} {e : ℕ × ℚ}
    (he : e ∈ closestBones b k v) {u : ℕ} (hu : u < b.length)
    (hunsel : u ∉ (closestBones b k v).map Prod.fst) :
    e.2 < dist2 v (b.getD u originVec) ∨
      (e.2 = dist2 v (b.getD u originVec) ∧ e.1 < u) := by
  have hgd : b.getD u originVec = b.get ⟨u, hu⟩ := by
    rw [List.getD_eq_getElem?_getD, List.getElem?_eq_getElem hu]; rfl
  have h1 : (u, dist2 v (b.getD u originVec)) ∈ distancesFor b v := by
    unfold distancesFor
    refine List.mem_map.2 ⟨(u, b.getD u originVec), ?_, rfl⟩
    refine List.mem_enum_iff_getElem?.2 ?_
    rw [List.getElem?_eq_getElem hu, hgd]
    rfl
  have h2 : (u, dist2 v (b.getD u originVec)) ∈
      List.insertionSort distLe (distancesFor b v) :=
    (List.mem_insertionSort distLe).2 h1
  have h3 : (u, dist2 v (b.getD u originVec)) ∉ closestBones b k v := by
    intro hmem
    exact hunsel (List.mem_map.2 ⟨_, hmem, rfl⟩)
  have h4 : (u, dist2 v (b.getD u originVec)) ∈
      (List.insertionSort distLe (distancesFor b v)).drop k := by
    have hsplit : (u, dist2 v (b.getD u originVec)) ∈
        (List.insertionSort distLe (distancesFor b v)).take k ++
          (List.insertionSort distLe (distancesFor b v)).drop k := by
      rw [List.take_append_drop]; exact h2
    rcases List.mem_append.1 hsplit with h | h
    · exact absurd h h3
    · exact h
  have h5 : distLe e (u, dist2 v (b.getD u originVec)) :=
    (List.sorted_insertionSort distLe _).rel_of_mem_take_of_mem_drop he h4
  have hne : e.1 ≠ u := fun h => hunsel (h ▸ List.mem_map_of_mem Prod.fst he)
  rcases h5 with h | ⟨h, hle⟩
  · exact Or.inl h
  · exact Or.inr ⟨h, lt_of_le_of_ne hle hne⟩

theorem nodup_closestBones_fst (b : List Vec3) (k : ℕ) (v : Vec3) :
    ((closestBones b k v).map Prod.fst).Nodup := by
  have hnd : ((distancesFor b v).map Prod.fst).Nodup := by
    unfold distancesFor
    rw [List.map_map]
    exact List.nodup_enum_map_fst _
  have hperm : List.Perm
      ((List.insertionSort distLe (distancesFor b v)).map Prod.fst)
      ((distancesFor b v).map Prod.fst) :=
    (List.perm_insertionSort distLe _).map _
  have hnd2 : ((List.insertionSort distLe (distancesFor b v)).map Prod.fst).Nodup :=
    hperm.nodup_iff.2 hnd
  have hsub : List.Sublist ((closestBones b k v).map Prod.fst)
      ((List.insertionSort distLe (distancesFor b v)).map Prod.fst) :=
    (List.take_sublist k _).map _
  exact hnd2.sublist hsub

/-! ## Lemmas about the output attribute arrays -/

theorem flatMap_length_fixed {α β : Type} (f : α → List β) (k : ℕ)
    (hf : ∀ a, (f a).length = k) (l : List α) :
    (l.flatMap f).length = l.length * k := by
  induction l with
  | nil => simp
  | cons a t ih => simp [List.flatMap_cons, ih, hf, Nat.succ_mul, Nat.add_comm]

theorem flatMap_drop_take {α β : Type} (f : α → List β) (k : ℕ)
    (hf : ∀ a, (f a).length = k) (d : α) :
    ∀ (l : List α) (m : ℕ), m < l.length →
      ((l.flatMap f).drop (m * k)).take k = f (l.getD m d)
  | [], m, hm => by simp at hm
  | a :: t, 0, _ => by
      rw [List.flatMap_cons]
      simp only [Nat.zero_mul, List.drop_zero, List.getD_cons_zero]
      rw [← hf a, List.take_left]
  | a :: t, m + 1, hm => by
      rw [List.flatMap_cons]
      have hmul : (m + 1) * k = (f a).length + m * k := by rw [hf]; ring
      rw [hmul, List.drop_append, List.getD_cons_succ]
      exact flatMap_drop_take f k hf d t m (by simpa using hm)

/-- What `autoSkin` writes when the geometry has a position attribute. -/
theorem autoSkin_skinAttrs (g : BufferGeometry) (s : Skeleton) (k : ℕ)
    (pos : BufferAttribute Vec3) (hg : g.position = some pos) :
    (autoSkin g s k).skinIndex =
      some ⟨pos.entries.flatMap
        (fun v => (vertexPairs (s.bones.map getWorldPosition) k v).map Prod.fst), k⟩ ∧
    (autoSkin g s k).skinWeight =
      some ⟨pos.entries.flatMap
        (fun v => (vertexPairs (s.bones.map getWorldPosition) k v).map Prod.snd), k⟩ ∧
    (autoSkin g s k).position = g.position := by
  simp [autoSkin, hg]

/-! ## `PluginManager`

The manager keeps a JS `Map` from plugin id to plugin (modelled as the
Map's insertion-ordered entry list) and an `initializationOrder` array.
The async lifecycle hooks `onInit` / `onDestroy` either resolve or
reject; a plugin value records each hook's outcome as an `Except`.
Methods that mutate `this` and can throw return the state after the call
paired with the thrown `PluginError` (`none` = normal return), so that
what a `throw` leaves behind is visible. -/

inductive PluginErrorCode
  | ALREADY_REGISTERED
  | INIT_FAILED
  | NOT_FOUND
deriving DecidableEq, Repr

structure PluginError where
  pluginId : String
  code : PluginErrorCode
  message : String
deriving DecidableEq, Repr

structure Plugin where
  id : String
  name : String
  onInit : Except String Unit
  onDestroy : Except String Unit

structure PluginManager where
  plugins : List (String × Plugin)
  initializationOrder : List String

/-- `PluginManager.has`. -/
def PluginManager.hasId (m : PluginManager) (pluginId : String) : Bool :=
  (m.plugins.lookup pluginId).isSome

/-- `PluginManager.count` (the `Map`'s size). -/
def PluginManager.count (m : PluginManager) : ℕ :=
  m.plugins.length

/-- `PluginManager.register(plugin)`.  `Map.set` on a key that is not
present appends the entry in iteration order.  The `plugins.set` /
`initializationOrder.push` mutations happen only after `await
plugin.onInit()` resolves, so a rejected `onInit` leaves the state
untouched. -/
def PluginManager.register (m : PluginManager) (plugin : Plugin) :
    PluginManager × Option PluginError :=
  if (m.plugins.lookup plugin.id).isSome then
    (m, some ⟨plugin.id, .ALREADY_REGISTERED, "already registered"⟩)
  else
    match plugin.onInit with
    | .ok _ =>
        ({ plugins := m.plugins ++ [(plugin.id, plugin)],
           initializationOrder := m.initializationOrder ++ [plugin.id] }, none)
    | .error _ =>
        (m, some ⟨plugin.id, .INIT_FAILED, "failed to initialize"⟩)

/-- `PluginManager.unregister(pluginId)`.  Whether `onDestroy` resolves
or rejects (the `catch` swallows the rejection), the entry is removed:
`Map.delete` makes `has(key)` false, which on the entry list is a filter
on the key, and `initializationOrder` is filtered literally as in the
source. -/
def PluginManager.unregister (m : PluginManager) (pluginId : String) :
    PluginManager × Option PluginError :=
  match m.plugins.lookup pluginId with
  | none => (m, some ⟨pluginId, .NOT_FOUND, "not found"⟩)
  | some plugin =>
      match plugin.onDestroy with
      | .ok _ =>
          ({ plugins := m.plugins.filter (fun q => q.1 ≠ pluginId),
             initializationOrder :=
               m.initializationOrder.filter (fun i => i ≠ pluginId) }, none)
      | .error _ =>
          ({ plugins := m.plugins.filter (fun q => q.1 ≠ pluginId),
             initializationOrder :=
               m.initializationOrder.filter (fun i => i ≠ pluginId) }, none)

theorem lookup_filter_ne (l : List (String × Plugin)) (x : String) :
    (l.filter (fun q => q.1 ≠ x)).lookup x = none := by
  induction l with
  | nil => rfl
  | cons a t ih =>
      by_cases h : a.1 = x
      · simpa [List.filter_cons, h] using ih
      · simpa [List.filter_cons, h, List.lookup_cons, Ne.symm h] using ih

/-! ## Generators

The generators assemble a scene-graph of geometric primitives.  An
`Object3D` node records what the source passes to the rendering
library: the constructor arguments of each primitive geometry, the
material parameters, and the `position` / `scale` / `rotation.z` values
the source sets.  Positions are real-valued because the monster
generator positions parts with `Math.cos` / `Math.sin` and arm rotation
uses `Math.PI`; all other numerology is rational. -/

structure VecR where
  x : ℝ
  y : ℝ
  z : ℝ

/-- A vector with rational coordinates (cast into `ℝ`). -/
def vq (x y z : ℚ) : VecR :=
  ⟨(x : ℝ), (y : ℝ), (z : ℝ)⟩

def vzero : VecR := vq 0 0 0

def vone : VecR := vq 1 1 1

/-- The `THREE.MeshStandardMaterial` parameters the generators set
(library defaults: `roughness` 1, `metalness` 0, `emissive` black,
opaque). -/
structure MeshStandardMaterial where
  color : ℕ
  roughness : ℚ := 1
  metalness : ℚ := 0
  emissive : ℕ := 0
  transparent : Bool := false
  opacity : ℚ := 1
deriving DecidableEq, Repr

/-- Constructor arguments of the library geometry primitives used. -/
inductive GeometryDesc
  | sphereGeometry (radius : ℚ) (widthSegments heightSegments : ℕ)
  | cylinderGeometry (radiusTop radiusBottom height : ℚ) (radialSegments : ℕ)
  | boxGeometry (width height depth : ℚ)
  | capsuleGeometry (radius length : ℚ) (capSegments radialSegments : ℕ)
  | coneGeometry (radius height : ℚ) (radialSegments : ℕ)
deriving DecidableEq, Repr

inductive Object3D
  | mesh (name : String) (geometry : GeometryDesc)
      (material : MeshStandardMaterial)
      (position : VecR) (scale : VecR) (rotationZ : ℝ)
  | group (name : String) (position : VecR) (rotationZ : ℝ)
      (children : List Object3D)

/-- `obj.name = n` (assignment after construction). -/
def Object3D.withName : Object3D → String → Object3D
  | .mesh _ g m p s r, n => .mesh n g m p s r
  | .group _ p r c, n => .group n p r c

/-- `obj.position.set(...)` / `obj.position.y = ...` combined. -/
def Object3D.withPosition : Object3D → VecR → Object3D
  | .mesh n g m _ s r, p => .mesh n g m p s r
  | .group n _ r c, p => .group n p r c

/-- `obj.rotation.z = ...`. -/
def Object3D.withRotationZ : Object3D → ℝ → Object3D
  | .mesh n g m p s _, r => .mesh n g m p s r
  | .group n p _ c, r => .group n p r c

def Object3D.children : Object3D → List Object3D
  | .mesh _ _ _ _ _ _ => []
  | .group _ _ _ c => c

def Object3D.name : Object3D → String
  | .mesh n _ _ _ _ _ => n
  | .group n _ _ _ => n

/-! ### `HumanoidGenerator` -/

structure HumanoidProportions where
  headHeight : ℚ
  headWidth : ℚ
  neckHeight : ℚ
  torsoHeight : ℚ
  torsoWidth : ℚ
  torsoDepth : ℚ
  armLength : ℚ
  armWidth : ℚ
  legLength : ℚ
  legWidth : ℚ
  footLength : ℚ
  footHeight : ℚ
deriving DecidableEq, Repr

def DEFAULT_PROPORTIONS : HumanoidProportions where
  headHeight := 0.12
  headWidth := 0.08
  neckHeight := 0.03
  torsoHeight := 0.25
  torsoWidth := 0.18
  torsoDepth := 0.10
  armLength := 0.30
  armWidth := 0.04
  legLength := 0.45
  legWidth := 0.06
  footLength := 0.10
  footHeight := 0.03

/-- `Partial<HumanoidProportions>`: the fields a style preset overrides. -/
structure HumanoidProportionOverrides where
  headHeight : Option ℚ := none
  headWidth : Option ℚ := none
  neckHeight : Option ℚ := none
  torsoHeight : Option ℚ := none
  torsoWidth : Option ℚ := none
  torsoDepth : Option ℚ := none
  armLength : Option ℚ := none
  armWidth : Option ℚ := none
  legLength : Option ℚ := none
  legWidth : Option ℚ := none
  footLength : Option ℚ := none
  footHeight : Option ℚ := none
deriving DecidableEq, Repr

/-- The object spread `{ ...DEFAULT_PROPORTIONS, ...overrides }`. -/
def mergeProportions (base : HumanoidProportions)
    (o : HumanoidProportionOverrides) : HumanoidProportions where
  headHeight := o.headHeight.getD base.headHeight
  headWidth := o.headWidth.getD base.headWidth
  neckHeight := o.neckHeight.getD base.neckHeight
  torsoHeight := o.torsoHeight.getD base.torsoHeight
  torsoWidth := o.torsoWidth.getD base.torsoWidth
  torsoDepth := o.torsoDepth.getD base.torsoDepth
  armLength := o.armLength.getD base.armLength
  armWidth := o.armWidth.getD base.armWidth
  legLength := o.legLength.getD base.legLength
  legWidth := o.legWidth.getD base.legWidth
  footLength := o.footLength.getD base.footLength
  footHeight := o.footHeight.getD base.footHeight

structure StyleMaterialDesc where
  color : ℕ
  roughness : ℚ
  metalness : ℚ
deriving DecidableEq, Repr

structure StylePreset where
  proportions : HumanoidProportionOverrides
  material : StyleMaterialDesc
deriving DecidableEq, Repr

def STYLE_PRESETS : List (String × StylePreset) :=
  [ ("realistic",
      { proportions := {}
        material := { color := 0xd4a574, roughness := 0.7, metalness := 0.0 } }),
    ("stylized",
      { proportions :=
          { headHeight := some 0.15, headWidth := some 0.10,
            torsoHeight := some 0.22 }
        material := { color := 0xffd4a0, roughness := 0.5, metalness := 0.0 } }),
    ("chibi",
      { proportions :=
          { headHeight := some 0.25, headWidth := some 0.20,
            torsoHeight := some 0.20, legLength := some 0.30 }
        material := { color := 0xffe4c4, roughness := 0.4, metalness := 0.0 } }),
    ("robot",
      { proportions :=
          { headHeight := some 0.10, headWidth := some 0.10,
            torsoWidth := some 0.20 }
        material := { color := 0x808080, roughness := 0.3, metalness := 0.8 } }) ]

/-- `createLimb(length, radius, material)`: a group holding a cylinder
and two sphere caps. -/
def createLimb (length radius : ℚ) (material : MeshStandardMaterial) : Object3D :=
  Object3D.group "" vzero 0
    [ Object3D.mesh ""
        (.cylinderGeometry radius radius (length - radius * 2) 8) material
        vzero vone 0,
      Object3D.mesh "" (.sphereGeometry radius 8 6) material
        (vq 0 ((length - radius * 2) / 2) 0) vone 0,
      Object3D.mesh "" (.sphereGeometry radius 8 6) material
        (vq 0 (-((length - radius * 2) / 2)) 0) vone 0 ]

/-- `HumanoidGenerator.buildHumanoid(props, height, material)`. -/
noncomputable def buildHumanoid (props : HumanoidProportions) (height : ℚ)
    (material : MeshStandardMaterial) : Object3D :=
  let scale := height
  let footY := props.footHeight * 0.5 * scale
  let legY := footY + props.footHeight * 0.5 * scale + props.legLength * 0.5 * scale
  let torsoY := legY + props.legLength * 0.5 * scale + props.torsoHeight * 0.5 * scale
  let neckY := torsoY + props.torsoHeight * 0.5 * scale + props.neckHeight * 0.5 * scale
  let headY := neckY + props.neckHeight * 0.5 * scale + props.headHeight * 0.5 * scale
  let shoulderX := (props.torsoWidth * 0.5 + props.armWidth) * scale
  let shoulderY := torsoY + props.torsoHeight * 0.3 * scale
  let hipX := props.torsoWidth * 0.25 * scale
  let footZ := (props.footLength * 0.5 - props.legWidth * 0.5) * scale
  let head := Object3D.mesh "head"
    (.sphereGeometry (props.headWidth * scale) 16 12) material
    (vq 0 headY 0) vone 0
  let neck := Object3D.mesh "neck"
    (.cylinderGeometry (props.headWidth * 0.4 * scale) (props.headWidth * 0.5 * scale)
      (props.neckHeight * scale) 8) material
    (vq 0 neckY 0) vone 0
  let torso := Object3D.mesh "torso"
    (.boxGeometry (props.torsoWidth * scale) (props.torsoHeight * scale)
      (props.torsoDepth * scale)) material
    (vq 0 torsoY 0) vone 0
  let leftArm :=
    (((createLimb (props.armLength * scale) (props.armWidth * scale)
        material).withName "arm_left").withPosition
          (vq (-shoulderX) shoulderY 0)).withRotationZ (Real.pi * 0.1)
  let rightArm :=
    (((createLimb (props.armLength * scale) (props.armWidth * scale)
        material).withName "arm_right").withPosition
          (vq shoulderX shoulderY 0)).withRotationZ (-(Real.pi * 0.1))
  let leftLeg :=
    ((createLimb (props.legLength * scale) (props.legWidth * scale)
        material).withName "leg_left").withPosition (vq (-hipX) legY 0)
  let rightLeg :=
    ((createLimb (props.legLength * scale) (props.legWidth * scale)
        material).withName "leg_right").withPosition (vq hipX legY 0)
  let leftFoot := Object3D.mesh "foot_left"
    (.boxGeometry (props.legWidth * scale) (props.footHeight * scale)
      (props.footLength * scale)) material
    (vq (-hipX) footY footZ) vone 0
  let rightFoot := Object3D.mesh "foot_right"
    (.boxGeometry (props.legWidth * scale) (props.footHeight * scale)
      (props.footLength * scale)) material
    (vq hipX footY footZ) vone 0
  Object3D.group "" vzero 0
    [head, neck, torso, leftArm, rightArm, leftLeg, rightLeg, leftFoot, rightFoot]

structure GenerationOptions where
  detailLevel : ℚ
  textureStyle : String
  includeAnimations : Bool
  bodyType : Option String := none
deriving DecidableEq, Repr

structure GenerationParams where
  type : String
  style : String
  prompt : Option String := none
  seed : Option ℤ := none
  options : GenerationOptions
deriving DecidableEq, Repr

/-- The metadata fields `generate` fills in itself.  The
vertex/face/material counts come from `calculateMetadata`, which reads
the vertex buffers the rendering library allocates for each primitive;
those counts are library internals (an excluded collaborator) and are
deterministic functions of the model, so they are not embedded. -/
structure CharacterMetadata where
  createdAt : ℕ
  updatedAt : ℕ
  plugins_used : List String
deriving DecidableEq, Repr

structure Character where
  id : String
  name : String
  type : String
  model : Object3D
  metadata : CharacterMetadata
  generationParams : GenerationParams

/-- The mutable per-generator-instance state (`BasePlugin` lifecycle
state plus the `characterCount` counter `generate` increments). -/
structure HumanoidGeneratorState where
  state : String
  characterCount : ℕ
deriving DecidableEq, Repr

/-- The browser-environment values read during one `generate` call:
`Date.now()` / `new Date()` (as a timestamp) and the
`Math.random().toString(36).substring(2, 8)` id suffix. -/
structure BrowserEnv where
  now : ℕ
  randomSuffix : String
deriving DecidableEq, Repr

/-- `HumanoidGenerator.generate(params)`.  Returns the character and the
updated generator state, or the thrown error message (`assertReady`).
`params.style || 'realistic'` treats the empty string as absent (JS
falsiness); the preset lookup falls back to the realistic preset, so
the `if (!stylePreset) throw` branch is unreachable. -/
noncomputable def HumanoidGenerator.generate (params : GenerationParams)
    (st : HumanoidGeneratorState) (env : BrowserEnv) :
    Except String (Character × HumanoidGeneratorState) :=
  if st.state ≠ "ready" then
    .error ("Plugin humanoid-generator is not ready (state: " ++ st.state ++ ")")
  else
    let styleKey := if params.style = "" then "realistic" else params.style
    let stylePreset := (STYLE_PRESETS.lookup styleKey).getD
      ((STYLE_PRESETS.lookup "realistic").getD
        { proportions := {}
          material := { color := 0xd4a574, roughness := 0.7, metalness := 0.0 } })
    let proportions := mergeProportions DEFAULT_PROPORTIONS stylePreset.proportions
    let totalHeight : ℚ := if (0.5 : ℚ) ≤ params.options.detailLevel then 1.8 else 1.6
    let bodyMaterial : MeshStandardMaterial :=
      { color := stylePreset.material.color
        roughness := stylePreset.material.roughness
        metalness := stylePreset.material.metalness }
    let newCount := st.characterCount + 1
    let characterRoot := (buildHumanoid proportions totalHeight
      bodyMaterial).withName ("humanoid-" ++ toString newCount)
    .ok
      ({ id := "char-" ++ toString env.now ++ "-" ++ env.randomSuffix
         name := "humanoid-" ++ toString newCount
         type := "humanoid"
         model := characterRoot
         metadata :=
           { createdAt := env.now
             updatedAt := env.now
             plugins_used := ["humanoid-generator"] }
         generationParams := params },
       { st with characterCount := newCount })

/-! ### `MonsterGenerator.buildSlime` -/

structure MonsterProportions where
  bodySize : ℚ
  headCount : ℕ
  headSize : ℚ
  armCount : ℕ
  armLength : ℚ
  legCount : ℕ
  legLength : ℚ
  tentacleCount : ℕ
  tentacleLength : ℚ
  spikeCount : ℕ
deriving DecidableEq, Repr

def DEFAULT_MONSTER_PROPORTIONS : MonsterProportions where
  bodySize := 0.5
  headCount := 1
  headSize := 0.15
  armCount := 2
  armLength := 0.5
  legCount := 2
  legLength := 0.5
  tentacleCount := 0
  tentacleLength := 0
  spikeCount := 0

/-- The slime preset's `Partial<MonsterProportions>` spread over the
defaults (`{ ...DEFAULT_PROPORTIONS, ...preset.proportions }` in
`MonsterGenerator.generate` with preset `slime`). -/
def slimeProportions : MonsterProportions :=
  { DEFAULT_MONSTER_PROPORTIONS with
    bodySize := 0.5
    headCount := 0
    armCount := 0
    legCount := 0
    tentacleCount := 0 }

/-- `MonsterGenerator.buildSlime(props, scale, material)`.  `random` is
the stream of values produced by the successive `Math.random()` calls
made during the build; the bubble loop makes two calls per iteration
(the bubble size, then the height offset), so iteration `i` consumes
`random (2*i)` and `random (2*i+1)`. -/
noncomputable def buildSlime (props : MonsterProportions) (scale : ℚ)
    (material : MeshStandardMaterial) (random : ℕ → ℚ) : Object3D :=
  let blob := Object3D.mesh "body"
    (.sphereGeometry (props.bodySize * scale * 0.5) 16 12) material
    (vq 0 (props.bodySize * scale * 0.3) 0) (vq 1 0.6 1) 0
  let bubbles := (List.range 5).map (fun i =>
    let bubbleSize := random (2 * i) * 0.1 + 0.05
    let angle : ℝ := ((i : ℝ) / 5) * Real.pi * 2
    Object3D.mesh ("bubble_" ++ toString i)
      (.sphereGeometry (bubbleSize * scale) 8 6) material
      ⟨Real.cos angle * ((props.bodySize * scale * 0.3 : ℚ) : ℝ),
        ((props.bodySize * scale * 0.2 + random (2 * i + 1) * 0.1 : ℚ) : ℝ),
        Real.sin angle * ((props.bodySize * scale * 0.3 : ℚ) : ℝ)⟩
      vone 0)
  let eyeMat : MeshStandardMaterial := { color := 0xffffff }
  let pupilMat : MeshStandardMaterial := { color := 0x000000 }
  let eyes := (List.range 2).flatMap (fun i =>
    let eyePos := vq ((if i = 0 then -1 else 1) * 0.1 * scale)
      (props.bodySize * scale * 0.4) (0.15 * scale)
    let pupilPos := vq ((if i = 0 then -1 else 1) * 0.1 * scale)
      (props.bodySize * scale * 0.4) (0.15 * scale + 0.03 * scale)
    [ Object3D.mesh ("eye_" ++ toString i)
        (.sphereGeometry (0.05 * scale) 8 6) eyeMat eyePos vone 0,
      Object3D.mesh ("pupil_" ++ toString i)
        (.sphereGeometry (0.02 * scale) 6 4) pupilMat pupilPos vone 0 ])
  Object3D.group "" vzero 0 (blob :: (bubbles ++ eyes))

/-! ## Abbreviations used in the claim statements -/

/-- The `bonePositions` array `autoSkin` computes from the skeleton. -/
def bonePositions (skeleton : Skeleton) : List Vec3 :=
  skeleton.bones.map getWorldPosition

/-- The vertex `autoSkin` reads for loop index `m`. -/
def vertexAt (pos : BufferAttribute Vec3) (m : ℕ) : Vec3 :=
  pos.entries.getD m originVec

/-- The original bone index stored in the `j`-th selected entry. -/
def selectedBoneIndex (s : Skeleton) (k : ℕ) (v : Vec3) (j : ℕ) : ℕ :=
  ((closestBones (bonePositions s) k v).getD j (0, 0)).1

/-- The world position of the `j`-th selected bone. -/
def selectedBonePos (s : Skeleton) (k : ℕ) (v : Vec3) (j : ℕ) : Vec3 :=
  (bonePositions s).getD (selectedBoneIndex s k v j) originVec

/-- Concrete inputs used by witnesses and counterexamples. -/
def posEx : BufferAttribute Vec3 := ⟨[⟨0, 0, 0⟩], 3⟩

def geometryEx : BufferGeometry :=
  { position := some posEx, skinIndex := none, skinWeight := none }

def emptySkeleton : Skeleton := ⟨[]⟩

def skeletonEx : Skeleton := ⟨[⟨⟨0, 0, 1⟩⟩]⟩

def skeleton2Ex : Skeleton := ⟨[⟨⟨0, 0, 1⟩⟩, ⟨⟨0, 0, 2⟩⟩]⟩

/-! ## Claim theorems -/

theorem flatMap_congr_fun {α β : Type} (l : List α) (f g : α → List β)
    (h : ∀ a, f a = g a) : l.flatMap f = l.flatMap g := by
  induction l with
  | nil => rfl
  | cons a t ih => rw [List.flatMap_cons, List.flatMap_cons, h, ih]

theorem flatMap_const_replicate {α β : Type} (l : List α) (k : ℕ) (c : β) :
    l.flatMap (fun _ => List.replicate k c) = List.replicate (l.length * k) c := by
  induction l with
  | nil => simp
  | cons a t ih =>
      rw [List.flatMap_cons, ih]
      rw [show (a :: t).length * k = k + t.length * k by simp [Nat.succ_mul, Nat.add_comm]]
      rw [List.replicate_add]

theorem vertexPairs_of_no_bones (k : ℕ) (v : Vec3) :
    vertexPairs [] k v = List.replicate k ((0 : ℕ), (0 : ℝ)) := by
  rw [vertexPairs_eq]
  have h : closestBones [] k v = [] := by
    simp [closestBones, distancesFor]
  rw [h]
  simp

/-- C2 (amended): `autoSkin` never throws; with no position attribute it
returns without touching the geometry; with an *empty skeleton* it does
not skip work — it still writes `skinIndex` and `skinWeight` attributes
holding `vertexCount * k` zeros each. -/
theorem autoSkin_failure_modes (g : BufferGeometry) (s : Skeleton) (k : ℕ) :
    (g.position = none → autoSkin g s k = g) ∧
    (∀ pos, g.position = some pos → s.bones = [] →
      (autoSkin g s k).position = g.position ∧
      (autoSkin g s k).skinIndex =
        some ⟨List.replicate (pos.entries.length * k) 0, k⟩ ∧
      (autoSkin g s k).skinWeight =
        some ⟨List.replicate (pos.entries.length * k) 0, k⟩) := by
  constructor
  · intro h
    simp [autoSkin, h]
  · intro pos hg hb
    obtain ⟨hi, hw, hp⟩ := autoSkin_skinAttrs g s k pos hg
    have hbp : s.bones.map getWorldPosition = [] := by simp [hb]
    have hfst : ∀ v : Vec3,
        (vertexPairs (s.bones.map getWorldPosition) k v).map Prod.fst =
          List.replicate k 0 := by
      intro v
      rw [hbp, vertexPairs_of_no_bones]
      simp
    have hsnd : ∀ v : Vec3,
        (vertexPairs (s.bones.map getWorldPosition) k v).map Prod.snd =
          List.replicate k 0 := by
      intro v
      rw [hbp, vertexPairs_of_no_bones]
      simp
    refine ⟨hp, ?_, ?_⟩
    · rw [hi]
      congr 2
      rw [flatMap_congr_fun _ _ _ hfst, flatMap_const_replicate]
    · rw [hw]
      congr 2
      rw [flatMap_congr_fun _ _ _ hsnd, flatMap_const_replicate]

def geometryNoPos : BufferGeometry :=
  { position := none, skinIndex := none, skinWeight := none }

theorem autoSkin_failure_modes_witness :
    autoSkin geometryNoPos skeletonEx 4 = geometryNoPos ∧
    ((autoSkin geometryEx emptySkeleton 4).position = geometryEx.position ∧
      (autoSkin geometryEx emptySkeleton 4).skinIndex =
        some ⟨List.replicate (posEx.entries.length * 4) 0, 4⟩ ∧
      (autoSkin geometryEx emptySkeleton 4).skinWeight =
        some ⟨List.replicate (posEx.entries.length * 4) 0, 4⟩) :=
  ⟨(autoSkin_failure_modes geometryNoPos skeletonEx 4).1 rfl,
   (autoSkin_failure_modes geometryEx emptySkeleton 4).2 posEx rfl rfl⟩

/-- C2 counterexample: on a one-vertex geometry and a skeleton with no
bones, `autoSkin` is not a no-op — it writes an all-zero `skinIndex`
attribute (the claim says nothing is written). -/
theorem autoSkin_emptySkeleton_writes :
    autoSkin geometryEx emptySkeleton 4 ≠ geometryEx ∧
    (autoSkin geometryEx emptySkeleton 4).skinIndex =
      some ⟨[0, 0, 0, 0], 4⟩ := by
  have hidx : (autoSkin geometryEx emptySkeleton 4).skinIndex =
      some ⟨[0, 0, 0, 0], 4⟩ := rfl
  refine ⟨fun h => ?_, hidx⟩
  rw [h] at hidx
  exact Option.noConfusion hidx

/-- C9: when a not-yet-registered plugin's `onInit()` rejects,
`register` throws a `PluginError` with code `INIT_FAILED` for that
plugin id and leaves the manager untouched: the plugin is not in the
registry, the count is unchanged, and the initialization order is
unmodified. -/
theorem register_initFailed_atomic (m : PluginManager) (p : Plugin)
    (msg : String) (hnot : m.hasId p.id = false)
    (hfail : p.onInit = .error msg) :
    m.register p = (m, some ⟨p.id, .INIT_FAILED, "failed to initialize"⟩) ∧
    (m.register p).1.hasId p.id = false ∧
    (m.register p).1.count = m.count ∧
    (m.register p).1.initializationOrder = m.initializationOrder := by
  have hlook : (m.plugins.lookup p.id).isSome = false := hnot
  have h1 : m.register p =
      (m, some ⟨p.id, .INIT_FAILED, "failed to initialize"⟩) := by
    unfold PluginManager.register
    rw [if_neg (by simp [hlook]), hfail]
  refine ⟨h1, ?_, ?_, ?_⟩
  · rw [h1]; exact hnot
  · rw [h1]
  · rw [h1]

def pluginBadInit : Plugin :=
  { id := "p-bad", name := "Bad Plugin", onInit := .error "boom",
    onDestroy := .ok () }

def emptyManager : PluginManager := ⟨[], []⟩

theorem register_initFailed_atomic_witness :
    emptyManager.hasId pluginBadInit.id = false ∧
    pluginBadInit.onInit = .error "boom" ∧
    (emptyManager.register pluginBadInit =
        (emptyManager, some ⟨pluginBadInit.id, .INIT_FAILED, "failed to initialize"⟩) ∧
      (emptyManager.register pluginBadInit).1.hasId pluginBadInit.id = false ∧
      (emptyManager.register pluginBadInit).1.count = emptyManager.count ∧
      (emptyManager.register pluginBadInit).1.initializationOrder =
        emptyManager.initializationOrder) :=
  ⟨rfl, rfl, register_initFailed_atomic emptyManager pluginBadInit "boom" rfl rfl⟩

/-- C10: `unregister` throws exactly when the id is not registered, and
the error is `NOT_FOUND`; when the id is registered it always removes it
— whatever `onDestroy` does — so afterwards `has(id)` is false and the
id is gone from the initialization order. -/
theorem unregister_spec (m : PluginManager) (pluginId : String) :
    ((m.unregister pluginId).2 = some ⟨pluginId, .NOT_FOUND, "not found"⟩ ↔
      m.hasId pluginId = false) ∧
    (∀ e, (m.unregister pluginId).2 = some e →
      e.code = .NOT_FOUND ∧ e.pluginId = pluginId) ∧
    (m.hasId pluginId = true →
      (m.unregister pluginId).2 = none ∧
      (m.unregister pluginId).1.hasId pluginId = false ∧
      pluginId ∉ (m.unregister pluginId).1.initializationOrder) := by
  cases hl : m.plugins.lookup pluginId with
  | none =>
      have hu : m.unregister pluginId =
          (m, some ⟨pluginId, .NOT_FOUND, "not found"⟩) := by
        unfold PluginManager.unregister
        rw [hl]
      have hhas : m.hasId pluginId = false := by
        unfold PluginManager.hasId
        rw [hl]; rfl
      refine ⟨?_, ?_, ?_⟩
      · rw [hu]; simp [hhas]
      · intro e he
        rw [hu] at he
        cases he
        exact ⟨rfl, rfl⟩
      · intro h
        rw [hhas] at h
        cases h
  | some plugin =>
      have hu : m.unregister pluginId =
          ({ plugins := m.plugins.filter (fun q => q.1 ≠ pluginId),
             initializationOrder :=
               m.initializationOrder.filter (fun i => i ≠ pluginId) }, none) := by
        simp only [PluginManager.unregister, hl]
        cases hd : plugin.onDestroy with
        | ok a => rfl
        | error a => rfl
      have hhas : m.hasId pluginId = true := by
        unfold PluginManager.hasId
        rw [hl]; rfl
      refine ⟨?_, ?_, ?_⟩
      · rw [hu, hhas]; simp
      · intro e he
        rw [hu] at he
        cases he
      · intro _
        refine ⟨by rw [hu], ?_, ?_⟩
        · rw [hu]
          unfold PluginManager.hasId
          rw [lookup_filter_ne]
          rfl
        · rw [hu]
          simp

def pluginBadDestroy : Plugin :=
  { id := "p-dead", name := "Dead Plugin", onInit := .ok (),
    onDestroy := .error "boom" }

def managerOne : PluginManager :=
  ⟨[("p-dead", pluginBadDestroy)], ["p-dead"]⟩

theorem unregister_spec_witness :
    managerOne.hasId "p-dead" = true ∧
    ((managerOne.unregister "p-dead").2 = none ∧
      (managerOne.unregister "p-dead").1.hasId "p-dead" = false ∧
      "p-dead" ∉ (managerOne.unregister "p-dead").1.initializationOrder) :=
  ⟨rfl, (unregister_spec managerOne "p-dead").2.2 rfl⟩

theorem vertexPairs_fst (b : List Vec3) (k : ℕ) (v : Vec3) :
    (vertexPairs b k v).map Prod.fst =
      (closestBones b k v).map Prod.fst ++
        List.replicate (k - (closestBones b k v).length) 0 := by
  rw [vertexPairs_eq, List.map_append, List.map_map, List.map_replicate]
  have h : (Prod.fst ∘ fun e : ℕ × ℚ =>
      (e.1, rawWeight e / ((closestBones b k v).map rawWeight).sum)) = Prod.fst :=
    rfl
  rw [h]

theorem vertexPairs_snd (b : List Vec3) (k : ℕ) (v : Vec3) :
    (vertexPairs b k v).map Prod.snd =
      (closestBones b k v).map
          (fun e => rawWeight e / ((closestBones b k v).map rawWeight).sum) ++
        List.replicate (k - (closestBones b k v).length) 0 := by
  rw [vertexPairs_eq, List.map_append, List.map_map, List.map_replicate]
  rfl

/-- Entry `m*k + j` of a flat output array is entry `j` of vertex `m`'s
per-vertex list. -/
theorem slot_getElem {β : Type} (entries : List β) (perVertex : List β)
    (k m j : ℕ) (hj : j < k)
    (h : (entries.drop (m * k)).take k = perVertex) :
    entries[m * k + j]? = perVertex[j]? := by
  rw [← h, List.getElem?_take, if_pos hj, List.getElem?_drop]

/-- C8: after `autoSkin` runs on a geometry with a position attribute
and a non-empty skeleton, the `skinIndex` and `skinWeight` attributes
each hold exactly `vertexCount * k` entries with item size `k`, laid out
vertex-major: slots `m*k .. m*k + k - 1` hold vertex `m`'s entries. -/
theorem autoSkin_output_layout (g : BufferGeometry) (s : Skeleton) (k : ℕ)
    (pos : BufferAttribute Vec3) (hg : g.position = some pos)
    (hb : s.bones ≠ []) :
    ∃ iAttr wAttr,
      (autoSkin g s k).skinIndex = some iAttr ∧
      (autoSkin g s k).skinWeight = some wAttr ∧
      iAttr.itemSize = k ∧ wAttr.itemSize = k ∧
      iAttr.entries.length = pos.entries.length * k ∧
      wAttr.entries.length = pos.entries.length * k ∧
      (∀ m, m < pos.entries.length →
        (iAttr.entries.drop (m * k)).take k =
          (vertexPairs (bonePositions s) k (vertexAt pos m)).map Prod.fst ∧
        (wAttr.entries.drop (m * k)).take k =
          (vertexPairs (bonePositions s) k (vertexAt pos m)).map Prod.snd) := by
  obtain ⟨hi, hw, -⟩ := autoSkin_skinAttrs g s k pos hg
  refine ⟨_, _, hi, hw, rfl, rfl, ?_, ?_, ?_⟩
  · exact flatMap_length_fixed _ k
      (fun v => by rw [List.length_map, length_vertexPairs]) _
  · exact flatMap_length_fixed _ k
      (fun v => by rw [List.length_map, length_vertexPairs]) _
  · intro m hm
    exact ⟨flatMap_drop_take _ k
        (fun v => by rw [List.length_map, length_vertexPairs]) originVec _ m hm,
      flatMap_drop_take _ k
        (fun v => by rw [List.length_map, length_vertexPairs]) originVec _ m hm⟩

theorem autoSkin_output_layout_witness :
    ∃ iAttr wAttr,
      (autoSkin geometryEx skeletonEx 4).skinIndex = some iAttr ∧
      (autoSkin geometryEx skeletonEx 4).skinWeight = some wAttr ∧
      iAttr.itemSize = 4 ∧ wAttr.itemSize = 4 ∧
      iAttr.entries.length = posEx.entries.length * 4 ∧
      wAttr.entries.length = posEx.entries.length * 4 ∧
      (∀ m, m < posEx.entries.length →
        (iAttr.entries.drop (m * 4)).take 4 =
          (vertexPairs (bonePositions skeletonEx) 4 (vertexAt posEx m)).map Prod.fst ∧
        (wAttr.entries.drop (m * 4)).take 4 =
          (vertexPairs (bonePositions skeletonEx) 4 (vertexAt posEx m)).map Prod.snd) :=
  autoSkin_output_layout geometryEx skeletonEx 4 posEx rfl (by decide)

/-- C1: with a position attribute, at least one bone and at least one
influence slot, the `k` skin weights written for each vertex sum to
exactly 1 (hence to 1.0 within the claimed 1e-6 tolerance). -/
theorem autoSkin_weights_sum_one (g : BufferGeometry) (s : Skeleton) (k : ℕ)
    (pos : BufferAttribute Vec3) (m : ℕ) (hg : g.position = some pos)
    (hb : s.bones ≠ []) (hk : 0 < k) (hm : m < pos.entries.length) :
    ∃ wAttr, (autoSkin g s k).skinWeight = some wAttr ∧
      ((wAttr.entries.drop (m * k)).take k).sum = 1 ∧
      |((wAttr.entries.drop (m * k)).take k).sum - 1| ≤ 1e-6 := by
  obtain ⟨-, hw, -⟩ := autoSkin_skinAttrs g s k pos hg
  have hsum :
      (((pos.entries.flatMap
          (fun v => (vertexPairs (s.bones.map getWorldPosition) k v).map
            Prod.snd)).drop (m * k)).take k).sum = 1 := by
    rw [flatMap_drop_take _ k
      (fun v => by rw [List.length_map, length_vertexPairs]) originVec _ m hm]
    exact vertexPairs_snd_sum _ k _ (by simpa using hb) hk
  refine ⟨_, hw, hsum, ?_⟩
  rw [hsum]
  norm_num

theorem autoSkin_weights_sum_one_witness :
    ∃ wAttr, (autoSkin geometryEx skeletonEx 4).skinWeight = some wAttr ∧
      ((wAttr.entries.drop (0 * 4)).take 4).sum = 1 ∧
      |((wAttr.entries.drop (0 * 4)).take 4).sum - 1| ≤ 1e-6 :=
  autoSkin_weights_sum_one geometryEx skeletonEx 4 posEx 0 rfl (by decide)
    (by decide) (by decide)

theorem vertexPairs_getElem_pad {b : List Vec3} {k : ℕ} {v : Vec3} {j : ℕ}
    (h1 : (closestBones b k v).length ≤ j) (h2 : j < k) :
    (vertexPairs b k v)[j]? = some ((0 : ℕ), (0 : ℝ)) := by
  rw [vertexPairs_eq, List.getElem?_append,
    if_neg (by rw [List.length_map]; omega), List.getElem?_replicate,
    if_pos (by rw [List.length_map]; omega)]

theorem vertexPairs_getElem_value {b : List Vec3} {k : ℕ} {v : Vec3} {j : ℕ}
    (hj : j < (closestBones b k v).length) :
    (vertexPairs b k v)[j]? = some
      (((closestBones b k v).getD j (0, 0)).1,
        rawWeight ((closestBones b k v).getD j (0, 0)) /
          ((closestBones b k v).map rawWeight).sum) := by
  rw [vertexPairs_eq, List.getElem?_append,
    if_pos (by rw [List.length_map]; exact hj),
    List.getElem?_map, List.getElem?_eq_getElem hj]
  have hgd : (closestBones b k v).getD j (0, 0) =
      (closestBones b k v).get ⟨j, hj⟩ := by
    rw [List.getD_eq_getElem?_getD, List.getElem?_eq_getElem hj]; rfl
  rw [hgd]
  rfl

/-- C7: when the skeleton has at least one bone but fewer than `k`, the
influence slots past the bone count get bone index 0 and weight 0, and
the first `boneCount` slots still carry the normalized inverse-distance
weights. -/
theorem autoSkin_pads_missing_influences (g : BufferGeometry) (s : Skeleton)
    (k : ℕ) (pos : BufferAttribute Vec3) (m : ℕ)
    (hg : g.position = some pos) (hb : s.bones ≠ [])
    (hlt : s.bones.length < k) (hm : m < pos.entries.length) :
    ∃ iAttr wAttr,
      (autoSkin g s k).skinIndex = some iAttr ∧
      (autoSkin g s k).skinWeight = some wAttr ∧
      (∀ j, s.bones.length ≤ j → j < k →
        iAttr.entries[m * k + j]? = some 0 ∧
        wAttr.entries[m * k + j]? = some 0) ∧
      (wAttr.entries.drop (m * k)).take s.bones.length =
        (closestBones (bonePositions s) k (vertexAt pos m)).map
          (fun e => rawWeight e /
            ((closestBones (bonePositions s) k (vertexAt pos m)).map
              rawWeight).sum) := by
  obtain ⟨hi, hw, -⟩ := autoSkin_skinAttrs g s k pos hg
  have hbp : (bonePositions s).length = s.bones.length := by
    simp [bonePositions]
  have hlen : (closestBones (bonePositions s) k (vertexAt pos m)).length =
      s.bones.length := by
    rw [length_closestBones, hbp]
    omega
  have hdtI :
      (((pos.entries.flatMap (fun v =>
          (vertexPairs (s.bones.map getWorldPosition) k v).map
            Prod.fst))).drop (m * k)).take k =
        (vertexPairs (bonePositions s) k (vertexAt pos m)).map Prod.fst :=
    flatMap_drop_take _ k
      (fun v => by rw [List.length_map, length_vertexPairs]) originVec _ m hm
  have hdtW :
      (((pos.entries.flatMap (fun v =>
          (vertexPairs (s.bones.map getWorldPosition) k v).map
            Prod.snd))).drop (m * k)).take k =
        (vertexPairs (bonePositions s) k (vertexAt pos m)).map Prod.snd :=
    flatMap_drop_take _ k
      (fun v => by rw [List.length_map, length_vertexPairs]) originVec _ m hm
  refine ⟨_, _, hi, hw, ?_, ?_⟩
  · intro j hj1 hj2
    have hpad : (vertexPairs (bonePositions s) k (vertexAt pos m))[j]? =
        some ((0 : ℕ), (0 : ℝ)) :=
      vertexPairs_getElem_pad (by omega) hj2
    constructor
    · rw [slot_getElem _ _ k m j hj2 hdtI, List.getElem?_map, hpad]
      rfl
    · rw [slot_getElem _ _ k m j hj2 hdtW, List.getElem?_map, hpad]
      rfl
  · have hstep : ((pos.entries.flatMap (fun v =>
        (vertexPairs (s.bones.map getWorldPosition) k v).map
          Prod.snd)).drop (m * k)).take s.bones.length =
        ((vertexPairs (bonePositions s) k (vertexAt pos m)).map
          Prod.snd).take s.bones.length := by
      rw [← hdtW, List.take_take, min_eq_left (le_of_lt hlt)]
    rw [hstep, vertexPairs_snd]
    rw [show s.bones.length =
        ((closestBones (bonePositions s) k (vertexAt pos m)).map
          (fun e => rawWeight e /
            ((closestBones (bonePositions s) k (vertexAt pos m)).map
              rawWeight).sum)).length from by rw [List.length_map, hlen]]
    rw [List.take_left]

theorem autoSkin_pads_missing_influences_witness :
    ∃ iAttr wAttr,
      (autoSkin geometryEx skeletonEx 4).skinIndex = some iAttr ∧
      (autoSkin geometryEx skeletonEx 4).skinWeight = some wAttr ∧
      (∀ j, skeletonEx.bones.length ≤ j → j < 4 →
        iAttr.entries[0 * 4 + j]? = some 0 ∧
        wAttr.entries[0 * 4 + j]? = some 0) ∧
      (wAttr.entries.drop (0 * 4)).take skeletonEx.bones.length =
        (closestBones (bonePositions skeletonEx) 4 (vertexAt posEx 0)).map
          (fun e => rawWeight e /
            ((closestBones (bonePositions skeletonEx) 4 (vertexAt posEx 0)).map
              rawWeight).sum) :=
  autoSkin_pads_missing_influences geometryEx skeletonEx 4 posEx 0 rfl
    (by decide) (by decide) (by decide)

theorem rawWeight_as_inverse_distance {v p : Vec3} {e : ℕ × ℚ}
    (h : e.2 = dist2 v p) :
    rawWeight e = 1 / (Vec3.distanceTo v p + 0.001) := by
  rw [rawWeight, Vec3.distanceTo, h]

/-- C5: the weight written in slot `j` of a vertex equals
`(1 / (d_j + 0.001))` divided by the sum of `1 / (d_i + 0.001)` over all
selected bones, where each `d` is the Euclidean distance from the vertex
to the bone's world-space origin and the epsilon constant is `0.001`. -/
theorem autoSkin_weight_formula (g : BufferGeometry) (s : Skeleton) (k : ℕ)
    (pos : BufferAttribute Vec3) (m j : ℕ) (hg : g.position = some pos)
    (hm : m < pos.entries.length) (hjk : j < k)
    (hjb : j < (bonePositions s).length) :
    ∃ wAttr, (autoSkin g s k).skinWeight = some wAttr ∧
      wAttr.entries[m * k + j]? = some
        ((1 / (Vec3.distanceTo (vertexAt pos m)
            (selectedBonePos s k (vertexAt pos m) j) + 0.001)) /
          ((closestBones (bonePositions s) k (vertexAt pos m)).map
            (fun e => 1 / (Vec3.distanceTo (vertexAt pos m)
              ((bonePositions s).getD e.1 originVec) + 0.001))).sum) := by
  obtain ⟨-, hw, -⟩ := autoSkin_skinAttrs g s k pos hg
  have hjlen : j < (closestBones (bonePositions s) k (vertexAt pos m)).length := by
    rw [length_closestBones]
    omega
  have hdtW :
      (((pos.entries.flatMap (fun v =>
          (vertexPairs (s.bones.map getWorldPosition) k v).map
            Prod.snd))).drop (m * k)).take k =
        (vertexPairs (bonePositions s) k (vertexAt pos m)).map Prod.snd :=
    flatMap_drop_take _ k
      (fun v => by rw [List.length_map, length_vertexPairs]) originVec _ m hm
  have hmem : (closestBones (bonePositions s) k (vertexAt pos m)).getD j (0, 0) ∈
      closestBones (bonePositions s) k (vertexAt pos m) := by
    rw [show (closestBones (bonePositions s) k (vertexAt pos m)).getD j (0, 0) =
        (closestBones (bonePositions s) k (vertexAt pos m)).get ⟨j, hjlen⟩ from by
      rw [List.getD_eq_getElem?_getD, List.getElem?_eq_getElem hjlen]; rfl]
    exact List.get_mem _ _ hjlen
  obtain ⟨-, hinv⟩ := mem_closestBones hmem
  have hraw : rawWeight
      ((closestBones (bonePositions s) k (vertexAt pos m)).getD j (0, 0)) =
      1 / (Vec3.distanceTo (vertexAt pos m)
        (selectedBonePos s k (vertexAt pos m) j) + 0.001) :=
    rawWeight_as_inverse_distance hinv
  have hT : (closestBones (bonePositions s) k (vertexAt pos m)).map rawWeight =
      (closestBones (bonePositions s) k (vertexAt pos m)).map
        (fun e => 1 / (Vec3.distanceTo (vertexAt pos m)
          ((bonePositions s).getD e.1 originVec) + 0.001)) := by
    refine List.map_congr_left (fun e he => ?_)
    obtain ⟨-, hinv2⟩ := mem_closestBones he
    exact rawWeight_as_inverse_distance hinv2
  refine ⟨_, hw, ?_⟩
  rw [slot_getElem _ _ k m j hjk hdtW, List.getElem?_map,
    vertexPairs_getElem_value hjlen]
  rw [Option.map_some']
  rw [show Prod.snd
      (((closestBones (bonePositions s) k (vertexAt pos m)).getD j (0, 0)).1,
        rawWeight ((closestBones (bonePositions s) k (vertexAt pos m)).getD j (0, 0)) /
          ((closestBones (bonePositions s) k (vertexAt pos m)).map rawWeight).sum) =
      rawWeight ((closestBones (bonePositions s) k (vertexAt pos m)).getD j (0, 0)) /
        ((closestBones (bonePositions s) k (vertexAt pos m)).map rawWeight).sum
    from rfl]
  rw [hraw, hT]

theorem autoSkin_weight_formula_witness :
    ∃ wAttr, (autoSkin geometryEx skeleton2Ex 4).skinWeight = some wAttr ∧
      wAttr.entries[0 * 4 + 0]? = some
        ((1 / (Vec3.distanceTo (vertexAt posEx 0)
            (selectedBonePos skeleton2Ex 4 (vertexAt posEx 0) 0) + 0.001)) /
          ((closestBones (bonePositions skeleton2Ex) 4 (vertexAt posEx 0)).map
            (fun e => 1 / (Vec3.distanceTo (vertexAt posEx 0)
              ((bonePositions skeleton2Ex).getD e.1 originVec) + 0.001))).sum) :=
  autoSkin_weight_formula geometryEx skeleton2Ex 4 posEx 0 0 rfl (by decide)
    (by decide) (by decide)

/-- The denominator in a raw weight is positive. -/
theorem rawWeight_denom_pos (v p : Vec3) :
    0 < Vec3.distanceTo v p + 0.001 := by
  have h : (0 : ℝ) ≤ Vec3.distanceTo v p := Real.sqrt_nonneg _
  norm_num
  linarith

/-- C3: among the bones selected for one vertex, being at most as far
away from that vertex gives an at-least-as-large normalized weight. -/
theorem autoSkin_weight_monotone (g : BufferGeometry) (s : Skeleton) (k : ℕ)
    (pos : BufferAttribute Vec3) (m i j : ℕ) (hg : g.position = some pos)
    (hm : m < pos.entries.length)
    (hik : i < k) (hib : i < (bonePositions s).length)
    (hjk : j < k) (hjb : j < (bonePositions s).length)
    (hd : Vec3.distanceTo (vertexAt pos m)
        (selectedBonePos s k (vertexAt pos m) i) ≤
      Vec3.distanceTo (vertexAt pos m)
        (selectedBonePos s k (vertexAt pos m) j)) :
    ∃ wAttr wi wj, (autoSkin g s k).skinWeight = some wAttr ∧
      wAttr.entries[m * k + i]? = some wi ∧
      wAttr.entries[m * k + j]? = some wj ∧ wj ≤ wi := by
  obtain ⟨-, hw, -⟩ := autoSkin_skinAttrs g s k pos hg
  have hilen : i < (closestBones (bonePositions s) k (vertexAt pos m)).length := by
    rw [length_closestBones]; omega
  have hjlen : j < (closestBones (bonePositions s) k (vertexAt pos m)).length := by
    rw [length_closestBones]; omega
  have hdtW :
      (((pos.entries.flatMap (fun v =>
          (vertexPairs (s.bones.map getWorldPosition) k v).map
            Prod.snd))).drop (m * k)).take k =
        (vertexPairs (bonePositions s) k (vertexAt pos m)).map Prod.snd :=
    flatMap_drop_take _ k
      (fun v => by rw [List.length_map, length_vertexPairs]) originVec _ m hm
  have hmemi : (closestBones (bonePositions s) k (vertexAt pos m)).getD i (0, 0) ∈
      closestBones (bonePositions s) k (vertexAt pos m) := by
    rw [show (closestBones (bonePositions s) k (vertexAt pos m)).getD i (0, 0) =
        (closestBones (bonePositions s) k (vertexAt pos m)).get ⟨i, hilen⟩ from by
      rw [List.getD_eq_getElem?_getD, List.getElem?_eq_getElem hilen]; rfl]
    exact List.get_mem _ _ hilen
  have hmemj : (closestBones (bonePositions s) k (vertexAt pos m)).getD j (0, 0) ∈
      closestBones (bonePositions s) k (vertexAt pos m) := by
    rw [show (closestBones (bonePositions s) k (vertexAt pos m)).getD j (0, 0) =
        (closestBones (bonePositions s) k (vertexAt pos m)).get ⟨j, hjlen⟩ from by
      rw [List.getD_eq_getElem?_getD, List.getElem?_eq_getElem hjlen]; rfl]
    exact List.get_mem _ _ hjlen
  obtain ⟨-, hinvi⟩ := mem_closestBones hmemi
  obtain ⟨-, hinvj⟩ := mem_closestBones hmemj
  have hrawi : rawWeight
      ((closestBones (bonePositions s) k (vertexAt pos m)).getD i (0, 0)) =
      1 / (Vec3.distanceTo (vertexAt pos m)
        (selectedBonePos s k (vertexAt pos m) i) + 0.001) :=
    rawWeight_as_inverse_distance hinvi
  have hrawj : rawWeight
      ((closestBones (bonePositions s) k (vertexAt pos m)).getD j (0, 0)) =
      1 / (Vec3.distanceTo (vertexAt pos m)
        (selectedBonePos s k (vertexAt pos m) j) + 0.001) :=
    rawWeight_as_inverse_distance hinvj
  have hwle : rawWeight
      ((closestBones (bonePositions s) k (vertexAt pos m)).getD j (0, 0)) ≤
      rawWeight
        ((closestBones (bonePositions s) k (vertexAt pos m)).getD i (0, 0)) := by
    rw [hrawi, hrawj]
    refine one_div_le_one_div_of_le (rawWeight_denom_pos _ _) ?_
    linarith
  have hTpos : 0 < ((closestBones (bonePositions s) k
      (vertexAt pos m)).map rawWeight).sum :=
    totalWeight_pos (List.ne_nil_of_length_pos (by omega))
  refine ⟨_,
    rawWeight ((closestBones (bonePositions s) k (vertexAt pos m)).getD i (0, 0)) /
      ((closestBones (bonePositions s) k (vertexAt pos m)).map rawWeight).sum,
    rawWeight ((closestBones (bonePositions s) k (vertexAt pos m)).getD j (0, 0)) /
      ((closestBones (bonePositions s) k (vertexAt pos m)).map rawWeight).sum,
    hw, ?_, ?_, ?_⟩
  · rw [slot_getElem _ _ k m i hik hdtW, List.getElem?_map,
      vertexPairs_getElem_value hilen, Option.map_some']
  · rw [slot_getElem _ _ k m j hjk hdtW, List.getElem?_map,
      vertexPairs_getElem_value hjlen, Option.map_some']
  · exact (div_le_div_iff_of_pos_right hTpos).2 hwle

theorem autoSkin_weight_monotone_witness :
    ∃ wAttr wi wj, (autoSkin geometryEx skeleton2Ex 4).skinWeight = some wAttr ∧
      wAttr.entries[0 * 4 + 0]? = some wi ∧
      wAttr.entries[0 * 4 + 1]? = some wj ∧ wj ≤ wi :=
  autoSkin_weight_monotone geometryEx skeleton2Ex 4 posEx 0 0 1 rfl (by decide)
    (by decide) (by decide) (by decide) (by decide)
    (by
      rw [show selectedBonePos skeleton2Ex 4 (vertexAt posEx 0) 0 =
          ⟨0, 0, 1⟩ from by with_unfolding_all decide]
      rw [show selectedBonePos skeleton2Ex 4 (vertexAt posEx 0) 1 =
          ⟨0, 0, 2⟩ from by with_unfolding_all decide]
      unfold Vec3.distanceTo
      refine Real.sqrt_le_sqrt ?_
      rw [show dist2 (vertexAt posEx 0) ⟨0, 0, 1⟩ = 1 from by
        with_unfolding_all decide]
      rw [show dist2 (vertexAt posEx 0) ⟨0, 0, 2⟩ = 4 from by
        with_unfolding_all decide]
      norm_num)

/-- C6: per vertex, `autoSkin` selects the `k` closest bones (all bones
when fewer than `k` exist); any selected bone is strictly closer to the
vertex than any unselected one, or at the same distance with a strictly
smaller original bone index (first-seen wins under the stable sort); the
selected indices, in sorted order, are what the vertex's `skinIndex`
slots hold. -/
theorem autoSkin_selects_k_closest (g : BufferGeometry) (s : Skeleton) (k : ℕ)
    (pos : BufferAttribute Vec3) (m : ℕ)
    (hg : g.position = some pos) (hm : m < pos.entries.length) :
    (closestBones (bonePositions s) k (vertexAt pos m)).length =
        min k (bonePositions s).length ∧
    ((closestBones (bonePositions s) k (vertexAt pos m)).map Prod.fst).Nodup ∧
    (∀ e ∈ closestBones (bonePositions s) k (vertexAt pos m),
        e.1 < (bonePositions s).length ∧
        e.2 = dist2 (vertexAt pos m) ((bonePositions s).getD e.1 originVec)) ∧
    (∀ e ∈ closestBones (bonePositions s) k (vertexAt pos m),
      ∀ u, u < (bonePositions s).length →
        u ∉ (closestBones (bonePositions s) k (vertexAt pos m)).map Prod.fst →
          Vec3.distanceTo (vertexAt pos m)
              ((bonePositions s).getD e.1 originVec) <
            Vec3.distanceTo (vertexAt pos m)
              ((bonePositions s).getD u originVec) ∨
          (Vec3.distanceTo (vertexAt pos m)
              ((bonePositions s).getD e.1 originVec) =
            Vec3.distanceTo (vertexAt pos m)
              ((bonePositions s).getD u originVec) ∧ e.1 < u)) ∧
    (∃ iAttr, (autoSkin g s k).skinIndex = some iAttr ∧
      (iAttr.entries.drop (m * k)).take k =
        (closestBones (bonePositions s) k (vertexAt pos m)).map Prod.fst ++
          List.replicate
            (k - (closestBones (bonePositions s) k (vertexAt pos m)).length)
            0) := by
  obtain ⟨hi, -, -⟩ := autoSkin_skinAttrs g s k pos hg
  refine ⟨length_closestBones _ _ _, nodup_closestBones_fst _ _ _,
    fun e he => mem_closestBones he, ?_, ?_⟩
  · intro e he u hu hunsel
    obtain ⟨-, hinv⟩ := mem_closestBones he
    rcases closestBones_optimal he hu hunsel with h | ⟨h, hlt⟩
    · left
      rw [Vec3.distanceTo, Vec3.distanceTo, ← hinv]
      exact Real.sqrt_lt_sqrt
        (by rw [hinv]; exact_mod_cast dist2_nonneg _ _)
        (by exact_mod_cast h)
    · right
      refine ⟨?_, hlt⟩
      rw [Vec3.distanceTo, Vec3.distanceTo, ← hinv, h]
  · refine ⟨_, hi, ?_⟩
    rw [flatMap_drop_take _ k
      (fun v => by rw [List.length_map, length_vertexPairs]) originVec _ m hm]
    exact vertexPairs_fst _ _ _

theorem autoSkin_selects_k_closest_witness :
    (closestBones (bonePositions skeleton2Ex) 4 (vertexAt posEx 0)).length =
        min 4 (bonePositions skeleton2Ex).length ∧
    ((closestBones (bonePositions skeleton2Ex) 4 (vertexAt posEx 0)).map
      Prod.fst).Nodup ∧
    (∀ e ∈ closestBones (bonePositions skeleton2Ex) 4 (vertexAt posEx 0),
        e.1 < (bonePositions skeleton2Ex).length ∧
        e.2 = dist2 (vertexAt posEx 0)
          ((bonePositions skeleton2Ex).getD e.1 originVec)) ∧
    (∀ e ∈ closestBones (bonePositions skeleton2Ex) 4 (vertexAt posEx 0),
      ∀ u, u < (bonePositions skeleton2Ex).length →
        u ∉ (closestBones (bonePositions skeleton2Ex) 4
            (vertexAt posEx 0)).map Prod.fst →
          Vec3.distanceTo (vertexAt posEx 0)
              ((bonePositions skeleton2Ex).getD e.1 originVec) <
            Vec3.distanceTo (vertexAt posEx 0)
              ((bonePositions skeleton2Ex).getD u originVec) ∨
          (Vec3.distanceTo (vertexAt posEx 0)
              ((bonePositions skeleton2Ex).getD e.1 originVec) =
            Vec3.distanceTo (vertexAt posEx 0)
              ((bonePositions skeleton2Ex).getD u originVec) ∧ e.1 < u)) ∧
    (∃ iAttr, (autoSkin geometryEx skeleton2Ex 4).skinIndex = some iAttr ∧
      (iAttr.entries.drop (0 * 4)).take 4 =
        (closestBones (bonePositions skeleton2Ex) 4 (vertexAt posEx 0)).map
            Prod.fst ++
          List.replicate
            (4 - (closestBones (bonePositions skeleton2Ex) 4
              (vertexAt posEx 0)).length) 0) :=
  autoSkin_selects_k_closest geometryEx skeleton2Ex 4 posEx 0 rfl (by decide)

theorem Object3D.children_withName (o : Object3D) (n : String) :
    (o.withName n).children = o.children := by
  cases o <;> rfl

/-- C4 (amended): the humanoid mesh hierarchy depends on the generation
parameters alone — two `generate` calls with the same params build
models with identical children (identical primitive sizes and
positions), whatever the generator state and browser environment — but
the character record is not reproducible across runs: the id
(timestamp plus random suffix), the name (instance counter) and the
timestamps differ, and the monster generator's `buildSlime` bubble
geometry depends on `Math.random`. -/
theorem generate_model_children_depend_only_on_params
    (params : GenerationParams) (st1 st2 : HumanoidGeneratorState)
    (env1 env2 : BrowserEnv)
    (h1 : st1.state = "ready") (h2 : st2.state = "ready") :
    (HumanoidGenerator.generate params st1 env1).map
        (fun r => r.1.model.children) =
      (HumanoidGenerator.generate params st2 env2).map
        (fun r => r.1.model.children) ∧
    (HumanoidGenerator.generate params st1 env1).map
        (fun r => r.1.generationParams) =
      (HumanoidGenerator.generate params st2 env2).map
        (fun r => r.1.generationParams) := by
  unfold HumanoidGenerator.generate
  rw [if_neg (show ¬(st1.state ≠ "ready") from by simp [h1]),
    if_neg (show ¬(st2.state ≠ "ready") from by simp [h2])]
  constructor
  · simp [Except.map, Object3D.children_withName]
  · rfl

def paramsEx : GenerationParams :=
  { type := "humanoid", style := "realistic",
    options :=
      { detailLevel := 1, textureStyle := "realistic",
        includeAnimations := false } }

def stReady : HumanoidGeneratorState := { state := "ready", characterCount := 0 }

def envA : BrowserEnv := { now := 0, randomSuffix := "aaaaaa" }

def envB : BrowserEnv := { now := 1, randomSuffix := "bbbbbb" }

theorem generate_model_children_depend_only_on_params_witness :
    (HumanoidGenerator.generate paramsEx stReady envA).map
        (fun r => r.1.model.children) =
      (HumanoidGenerator.generate paramsEx stReady envB).map
        (fun r => r.1.model.children) ∧
    (HumanoidGenerator.generate paramsEx stReady envA).map
        (fun r => r.1.generationParams) =
      (HumanoidGenerator.generate paramsEx stReady envB).map
        (fun r => r.1.generationParams) :=
  generate_model_children_depend_only_on_params paramsEx stReady stReady
    envA envB rfl rfl

/-- The material `MonsterGenerator.generate` builds for the slime preset
(green, transparent, opacity 0.8). -/
def slimeMaterial : MeshStandardMaterial :=
  { color := 0x00ff00, roughness := 0.2, metalness := 0.3, emissive := 0,
    transparent := true, opacity := 0.8 }

/-- The radius of the first slime bubble (`bubble_0`), the second child
of the slime group. -/
def bubbleRadius (o : Object3D) : ℚ :=
  match o.children[1]? with
  | some (Object3D.mesh _ (GeometryDesc.sphereGeometry r _ _) _ _ _ _) => r
  | _ => 0

/-- C4 counterexample: two `generate` runs with identical params do not
produce identical characters — the record ids differ when the clock or
the random suffix differs — and `buildSlime` builds different bubble
geometry under different `Math.random` streams, so even the monster
mesh primitive sizes differ between runs. -/
theorem generate_not_deterministic :
    (HumanoidGenerator.generate paramsEx stReady envA).map (fun r => r.1.id) ≠
      (HumanoidGenerator.generate paramsEx stReady envB).map
        (fun r => r.1.id) ∧
    buildSlime slimeProportions 1.8 slimeMaterial (fun _ => 0) ≠
      buildSlime slimeProportions 1.8 slimeMaterial (fun _ => 1 / 2) := by
  constructor
  · intro h
    have hA : (HumanoidGenerator.generate paramsEx stReady envA).map
        (fun r => r.1.id) = .ok "char-0-aaaaaa" := rfl
    have hB : (HumanoidGenerator.generate paramsEx stReady envB).map
        (fun r => r.1.id) = .ok "char-1-bbbbbb" := rfl
    rw [hA, hB] at h
    injection h with h3
    exact absurd h3 (by decide)
  · intro h
    exact absurd (congrArg bubbleRadius h) (by with_unfolding_all decide)

end CharGen
